import Mathlib

/-!
Verification of the windowed pagination + live-merge controller in
`src/components/Transactions.js` (hathor-explorer).

The component is shallowly embedded: each lifecycle handler becomes a pure
function from the component state (`this.state`) and its inputs to the new
component state; the URL query parameters (the persisted Navigation Context)
are threaded explicitly.  A small world-level step machine then composes the
handlers with the environment events (router navigation, fetch resolution,
fetch rejection, websocket delivery, unmount) to state reachability
invariants.
-/

/-- Record of the transaction list: the fields of a transaction the component
reads (`tx_id` and `timestamp`); the rest of the payload is opaque and
irrelevant to the controller. -/
structure Record where
  tx_id : String
  timestamp : Int
  deriving Repr, DecidableEq

/-- Query parameters triple as read by `obtainQueryParams()` from the URL
(`ts`, `hash`, `page`); each is a string or null. -/
structure QueryParams where
  timestamp : Option String
  hash : Option String
  page : Option String
  deriving Repr, DecidableEq

/-- Successful fetch payload: `{ transactions, has_more }`. -/
structure FetchData where
  transactions : List Record
  has_more : Bool
  deriving Repr, DecidableEq

/-- Websocket event as delivered on the `network` channel: a type
discriminator plus the transaction payload itself (`wsData` is passed as the
transaction to `updateListWs`). -/
structure WsData where
  type : String
  tx : Record
  deriving Repr, DecidableEq

/-- Component state of `Transactions` (the `this.state` object built in the
constructor). -/
structure TxState where
  transactions : List Record
  firstHash : Option String
  firstTimestamp : Option Int
  lastHash : Option String
  lastTimestamp : Option Int
  loading : Bool
  hasAfter : Bool
  hasBefore : Bool
  queryParams : QueryParams
  error : Option String
  deriving Repr, DecidableEq

/-- JavaScript truthiness of a nullable string (`null` and the empty string
are falsy), used for `queryParams.hash || this.state.hasBefore`. -/
def strTruthy : Option String → Bool
  | none => false
  | some s => !(s = "")

namespace helpers

/-- Modelled from the spec: `helpers.updateListWs` lives in
`src/utils/helpers.js`, which is not under `src/`.  Per the spec's merge
algorithm: a record whose `id` already occurs in the window is a no-op;
otherwise the new record is inserted at position 0, dropping the last
(oldest) element first when the window is already at capacity `n`. -/
def updateListWs (l : List Record) (tx : Record) (n : Nat) : List Record :=
  if l.any (fun r => r.tx_id = tx.tx_id) then l
  else if l.length = n then tx :: l.dropLast
  else tx :: l

end helpers

/-- Clearing of the persisted query parameters (`clearQueryParams()` deletes
`ts`, `hash` and `page` from the URL). -/
def clearQueryParams (_url : QueryParams) : QueryParams :=
  { timestamp := none, hash := none, page := none }

/-- State produced by the accepted branch of `updateListWs`: recompute
`hasAfter`, merge the transaction into the window via `helpers.updateListWs`
with capacity `n` (= `TX_COUNT`, a constant from `src/constants.js` not under
`src/`, modelled as a parameter), and recompute the boundary hashes and
timestamps from the new window extremes. -/
def mergedState (n : Nat) (s : TxState) (tx : Record) : TxState :=
  let hasAfter := s.hasAfter || (decide (s.transactions.length = n) && !s.hasAfter)
  let transactions := helpers.updateListWs s.transactions tx n
  { s with
    transactions := transactions
    hasAfter := hasAfter
    firstHash := transactions.head?.map Record.tx_id
    firstTimestamp := transactions.head?.map Record.timestamp
    lastHash := transactions.getLast?.map Record.tx_id
    lastTimestamp := transactions.getLast?.map Record.timestamp }

/-- Method `updateListWs` of the component: new transactions are only added
when on the first page (`!this.state.hasBefore`) and when the externally
supplied predicate `shouldUpdateList` accepts the incoming record. -/
def updateListWs (n : Nat) (pred : Record → Bool) (s : TxState) (tx : Record) : TxState :=
  if !s.hasBefore then
    (if pred tx then mergedState n s tx else s)
  else s

/-- Method `handleWebsocket`: only events whose type is exactly
`network:new_tx_accepted` reach `updateListWs`. -/
def handleWebsocket (n : Nat) (pred : Record → Bool) (s : TxState) (d : WsData) : TxState :=
  if d.type = "network:new_tx_accepted" then updateListWs n pred s d.tx else s

/-- Method `handleDataFetched(data, queryParams)`: computes the boundary
hashes/timestamps of the fetched page (null on an empty page), derives
`hasBefore`/`hasAfter` from the requested direction and the page's `has_more`
flag, clears the persisted query parameters when a `previous` fetch returns
to the most recent page, and replaces the window wholesale.  Returns the new
component state together with the (possibly cleared) URL parameters. -/
def handleDataFetched (s : TxState) (url : QueryParams) (d : FetchData)
    (queryParams : QueryParams) : TxState × QueryParams :=
  let firstHash := d.transactions.head?.map Record.tx_id
  let lastHash := d.transactions.getLast?.map Record.tx_id
  let firstTimestamp := d.transactions.head?.map Record.timestamp
  let lastTimestamp := d.transactions.getLast?.map Record.timestamp
  if queryParams.page = some "previous" then
    let url' := if d.has_more = false then clearQueryParams url else url
    ({ s with
        transactions := d.transactions
        loading := false
        firstHash := firstHash
        lastHash := lastHash
        firstTimestamp := firstTimestamp
        lastTimestamp := lastTimestamp
        hasAfter := true
        hasBefore := d.has_more
        queryParams := queryParams }, url')
  else if queryParams.page = some "next" then
    ({ s with
        transactions := d.transactions
        loading := false
        firstHash := firstHash
        lastHash := lastHash
        firstTimestamp := firstTimestamp
        lastTimestamp := lastTimestamp
        hasAfter := d.has_more
        hasBefore := true
        queryParams := queryParams }, url)
  else
    ({ s with
        transactions := d.transactions
        loading := false
        firstHash := firstHash
        lastHash := lastHash
        firstTimestamp := firstTimestamp
        lastTimestamp := lastTimestamp
        hasAfter := d.has_more
        hasBefore := false
        queryParams := queryParams }, url)

/-- Rejection handler of the fetch promise in `getData`: records the failure
and stops loading, touching nothing else. -/
def onFetchError (s : TxState) (e : String) : TxState :=
  { s with loading := false, error := some e }

/-- Guard `justErrored` of `componentDidUpdate`
(`this.state.error && !prevState.error`): the current state's error is truthy
and the previous state's error is falsy (null or the empty string), i.e. the
update being evaluated is the one that recorded a truthy failure. -/
def justErrored (prevState s : TxState) : Bool :=
  strTruthy s.error && !strTruthy prevState.error

/-- Guard `skipGetData` of `componentDidUpdate`. -/
def skipGetData (prevState s : TxState) : Bool :=
  s.loading || justErrored prevState s

/-- Decision of `componentDidUpdate` to issue a fetch: not suppressed, the
URL parameters differ structurally from the last applied ones, and either the
new parameters carry a hash or older pages are currently available. -/
def willFetch (prevState s : TxState) (url : QueryParams) : Bool :=
  !skipGetData prevState s && !(s.queryParams = url) &&
    (strTruthy url.hash || s.hasBefore)

/-- World state: the component state, the current URL parameters, whether the
component is still mounted (the framework drops `setState` calls on an
unmounted component), whether the `network` websocket listener is registered,
and the list of outstanding fetches with the query parameters each was issued
with. -/
structure World where
  comp : TxState
  url : QueryParams
  mounted : Bool
  listening : Bool
  inFlight : List QueryParams
  deriving Repr, DecidableEq

/-- Evaluation of `componentDidUpdate(prevProps, prevState)` after a state
update: reads the current URL parameters and, when the fetch guard passes,
performs `setState({ loading: true, error: null })` and issues
`getData(queryParams)`.  The nested evaluation triggered by that inner
`setState` is skipped by its own `loading` guard, so it is omitted here. -/
def didUpdateW (prev : TxState) (w : World) : World :=
  if willFetch prev w.comp w.url then
    { w with
      comp := { w.comp with loading := true, error := none }
      inFlight := w.inFlight ++ [w.url] }
  else w

/-- World after the constructor and `componentDidMount`: state initialised
with the query parameters read from the URL, `loading` true, `getData` issued
with those parameters, and the `network` listener registered. -/
def initWorld (u : QueryParams) : World :=
  { comp :=
      { transactions := []
        firstHash := none
        firstTimestamp := none
        lastHash := none
        lastTimestamp := none
        loading := true
        hasAfter := false
        hasBefore := false
        queryParams := u
        error := none }
    url := u
    mounted := true
    listening := true
    inFlight := [u] }

/-- Router navigation: the URL changes and the component re-renders, so
`componentDidUpdate` is evaluated (with an unchanged component state). -/
def stepNavigate (w : World) (q : QueryParams) : World :=
  let w1 := { w with url := q }
  if w1.mounted then didUpdateW w1.comp w1 else w1

/-- Resolution of the oldest outstanding fetch: the continuation runs
`handleDataFetched(data, queryParams)`.  The URL-clearing side effect always
executes; the `setState` (and the update evaluation it triggers) applies only
while mounted. -/
def stepResolve (w : World) (data : FetchData) : World :=
  match w.inFlight with
  | [] => w
  | q :: rest =>
    let r := handleDataFetched w.comp w.url data q
    if w.mounted then
      didUpdateW w.comp { w with comp := r.1, url := r.2, inFlight := rest }
    else
      { w with url := r.2, inFlight := rest }

/-- Rejection of the oldest outstanding fetch: the error continuation runs
`setState({ loading: false, error: e })`, applied only while mounted. -/
def stepReject (w : World) (e : String) : World :=
  match w.inFlight with
  | [] => w
  | _ :: rest =>
    if w.mounted then
      didUpdateW w.comp { w with comp := onFetchError w.comp e, inFlight := rest }
    else
      { w with inFlight := rest }

/-- Delivery of a websocket event: the handler only runs while the listener
is registered; a `setState` (hence an update evaluation) happens exactly when
the event type matches, the window shows the first page and the predicate
accepts the record. -/
def stepWs (n : Nat) (pred : Record → Bool) (w : World) (d : WsData) : World :=
  if w.listening then
    if d.type = "network:new_tx_accepted" then
      if !w.comp.hasBefore && pred d.tx then
        (if w.mounted then
          didUpdateW w.comp { w with comp := mergedState n w.comp d.tx }
        else w)
      else w
    else w
  else w

/-- Teardown (`componentWillUnmount`): the `network` listener is removed and
the component is unmounted. -/
def stepUnmount (w : World) : World :=
  { w with mounted := false, listening := false }

/-- Environment events driving the controller. -/
inductive Event where
  | navigate (q : QueryParams)
  | resolve (data : FetchData)
  | reject (e : String)
  | ws (d : WsData)
  | unmount
  deriving Repr

/-- One step of the world machine. -/
def step (n : Nat) (pred : Record → Bool) (w : World) : Event → World
  | .navigate q => stepNavigate w q
  | .resolve data => stepResolve w data
  | .reject e => stepReject w e
  | .ws d => stepWs n pred w d
  | .unmount => stepUnmount w

/-- Environment contract on events: the Page Fetcher returns pages of at most
`n` records. -/
def evOk (n : Nat) : Event → Prop
  | .resolve data => data.transactions.length ≤ n
  | _ => True

/-- Worlds reachable from some initial mount under the Page Fetcher
contract. -/
inductive Reachable (n : Nat) (pred : Record → Bool) : World → Prop
  | init (u : QueryParams) : Reachable n pred (initWorld u)
  | step {w : World} (e : Event) (he : evOk n e) (hw : Reachable n pred w) :
      Reachable n pred (step n pred w e)

/-- Machine invariant: whenever a fetch is outstanding, the component shows
`loading` with no error recorded, and at most one fetch is outstanding. -/
def MachineInv (w : World) : Prop :=
  (w.inFlight ≠ [] → w.comp.error = none ∧ w.comp.loading = true) ∧
    w.inFlight.length ≤ 1

/-- Concrete sample record for evaluating the definitions. -/
def sampleRecord : Record := { tx_id := "00aa", timestamp := 1579637190 }

/-- Concrete all-absent query parameter triple. -/
def sampleUrl : QueryParams := { timestamp := none, hash := none, page := none }

/-- Concrete `next`-direction query parameter triple. -/
def sampleNextParams : QueryParams :=
  { timestamp := some "1579637190", hash := some "00b1", page := some "next" }

/-- Concrete one-record fetch payload with no further pages. -/
def sampleData : FetchData := { transactions := [sampleRecord], has_more := false }

/-- Concrete freshly-mounted component state. -/
def sampleState : TxState := (initWorld sampleUrl).comp

/-- Concrete state that has paginated back (`hasBefore` is set). -/
def samplePagedState : TxState := { sampleState with hasBefore := true }

/-- Concrete idle state on the first page. -/
def sampleIdleState : TxState := { sampleState with loading := false }

/-- Concrete world after teardown. -/
def sampleUnmountedWorld : World := stepUnmount (initWorld sampleUrl)

/-- Concrete state in `Error` (a failed fetch has been recorded). -/
def prevErrorState : TxState :=
  { transactions := []
    firstHash := none
    firstTimestamp := none
    lastHash := none
    lastTimestamp := none
    loading := false
    hasAfter := false
    hasBefore := false
    queryParams := { timestamp := none, hash := none, page := none }
    error := some "boom" }

/-- Concrete state immediately out of `Error` (error cleared, not loading). -/
def idleAfterErrorState : TxState := { prevErrorState with error := none }

/-- Concrete changed URL parameters carrying a hash. -/
def newUrlParams : QueryParams :=
  { timestamp := some "1579637190", hash := some "00000000001b328f", page := some "next" }

theorem handleDataFetched_error_eq (s : TxState) (url : QueryParams) (d : FetchData)
    (q : QueryParams) : (handleDataFetched s url d q).1.error = s.error := by
  unfold handleDataFetched
  split
  · rfl
  · split <;> rfl

theorem handleDataFetched_loading_eq (s : TxState) (url : QueryParams) (d : FetchData)
    (q : QueryParams) : (handleDataFetched s url d q).1.loading = false := by
  unfold handleDataFetched
  split
  · rfl
  · split <;> rfl

theorem handleDataFetched_transactions_eq (s : TxState) (url : QueryParams) (d : FetchData)
    (q : QueryParams) : (handleDataFetched s url d q).1.transactions = d.transactions := by
  unfold handleDataFetched
  split
  · rfl
  · split <;> rfl

theorem mergedState_error_eq (n : Nat) (s : TxState) (tx : Record) :
    (mergedState n s tx).error = s.error := rfl

theorem mergedState_loading_eq (n : Nat) (s : TxState) (tx : Record) :
    (mergedState n s tx).loading = s.loading := rfl

theorem mergedState_transactions_eq (n : Nat) (s : TxState) (tx : Record) :
    (mergedState n s tx).transactions = helpers.updateListWs s.transactions tx n := rfl

theorem didUpdateW_transactions_eq (prev : TxState) (w : World) :
    (didUpdateW prev w).comp.transactions = w.comp.transactions := by
  unfold didUpdateW
  split <;> rfl

theorem didUpdateW_error_none (prev : TxState) (w : World) (h : w.comp.error = none) :
    (didUpdateW prev w).comp.error = none := by
  unfold didUpdateW
  split
  · rfl
  · exact h

theorem updateListWs_length_le (l : List Record) (tx : Record) (n : Nat)
    (hn : 0 < n) (hl : l.length ≤ n) : (helpers.updateListWs l tx n).length ≤ n := by
  unfold helpers.updateListWs
  by_cases hdup : l.any (fun r => r.tx_id = tx.tx_id) = true
  · simpa [hdup] using hl
  · by_cases hlen : l.length = n
    · simp [hdup, hlen, List.length_dropLast]
      omega
    · simp [hdup, hlen]
      omega

theorem didUpdateW_inv (prev : TxState) (w : World) (h : MachineInv w) :
    MachineInv (didUpdateW prev w) := by
  unfold didUpdateW
  split
  · rename_i hf
    have hl : w.comp.loading = false := by
      by_contra hc
      have hlt : w.comp.loading = true := by
        revert hc
        cases w.comp.loading <;> simp
      simp [willFetch, skipGetData, hlt] at hf
    have hnil : w.inFlight = [] := by
      cases hq : w.inFlight with
      | nil => rfl
      | cons a l =>
        have hload := (h.1 (by simp [hq])).2
        rw [hl] at hload
        exact absurd hload (by simp)
    exact ⟨fun _ => ⟨rfl, rfl⟩, by simp [hnil]⟩
  · exact h

theorem machineInv_of_nil {w : World} (h : w.inFlight = []) : MachineInv w :=
  ⟨fun hne => absurd h hne, by simp [h]⟩

theorem reachable_inv {n : Nat} {pred : Record → Bool} {w : World}
    (h : Reachable n pred w) : MachineInv w := by
  induction h with
  | init u => exact ⟨fun _ => ⟨rfl, rfl⟩, by simp [initWorld]⟩
  | step e he hw ih =>
    rename_i w'
    cases e with
    | navigate q =>
      simp only [step, stepNavigate]
      split
      · exact didUpdateW_inv _ _ ⟨ih.1, ih.2⟩
      · exact ⟨ih.1, ih.2⟩
    | resolve data =>
      simp only [step, stepResolve]
      rcases hq : w'.inFlight with _ | ⟨q, rest⟩ <;> simp only [hq]
      · exact ih
      · have hrest : rest = [] := by
          have h2 := ih.2
          rw [hq] at h2
          simp only [List.length_cons] at h2
          have h0 : rest.length = 0 := by omega
          exact List.length_eq_zero.mp h0
        split
        · refine didUpdateW_inv _ _ (machineInv_of_nil ?_)
          exact hrest
        · refine machineInv_of_nil ?_
          exact hrest
    | reject e' =>
      simp only [step, stepReject]
      rcases hq : w'.inFlight with _ | ⟨q, rest⟩ <;> simp only [hq]
      · exact ih
      · have hrest : rest = [] := by
          have h2 := ih.2
          rw [hq] at h2
          simp only [List.length_cons] at h2
          have h0 : rest.length = 0 := by omega
          exact List.length_eq_zero.mp h0
        split
        · refine didUpdateW_inv _ _ (machineInv_of_nil ?_)
          exact hrest
        · refine machineInv_of_nil ?_
          exact hrest
    | ws d =>
      simp only [step, stepWs]
      split
      · split
        · split
          · split
            · refine didUpdateW_inv _ _ ⟨fun hne => ?_, ih.2⟩
              have h1 := ih.1 hne
              exact ⟨by rw [mergedState_error_eq]; exact h1.1,
                by rw [mergedState_loading_eq]; exact h1.2⟩
            · exact ih
          · exact ih
        · exact ih
      · exact ih
    | unmount => exact ⟨ih.1, ih.2⟩

/-- C1: direction-dependent flag derivation of `handleDataFetched`: a `next`
fetch sets `hasBefore` unconditionally and takes `hasAfter` from `has_more`;
a `previous` fetch sets `hasAfter` unconditionally, takes `hasBefore` from
`has_more` and, when `has_more` is false, clears the persisted query
parameters to the all-absent triple; an initial load (no direction) leaves
`hasBefore` false and takes `hasAfter` from `has_more`. -/
theorem handleDataFetched_direction_flags (s : TxState) (url : QueryParams)
    (d : FetchData) (q : QueryParams) :
    (q.page = some "next" →
      (handleDataFetched s url d q).1.hasBefore = true ∧
      (handleDataFetched s url d q).1.hasAfter = d.has_more) ∧
    (q.page = some "previous" →
      (handleDataFetched s url d q).1.hasAfter = true ∧
      (handleDataFetched s url d q).1.hasBefore = d.has_more ∧
      (d.has_more = false →
        (handleDataFetched s url d q).2 =
          { timestamp := none, hash := none, page := none })) ∧
    (q.page = none →
      (handleDataFetched s url d q).1.hasBefore = false ∧
      (handleDataFetched s url d q).1.hasAfter = d.has_more) := by
  refine ⟨?_, ?_, ?_⟩ <;> intro hp
  · simp [handleDataFetched, hp]
  · simp [handleDataFetched, hp, clearQueryParams]
    intro hm
    simp [hm]
  · simp [handleDataFetched, hp]

/-- Witness for C1: a concrete `next` fetch with `has_more = false`. -/
theorem handleDataFetched_direction_flags_witness :
    (handleDataFetched sampleState sampleUrl sampleData sampleNextParams).1.hasBefore = true ∧
    (handleDataFetched sampleState sampleUrl sampleData sampleNextParams).1.hasAfter =
      sampleData.has_more :=
  (handleDataFetched_direction_flags sampleState sampleUrl sampleData sampleNextParams).1 rfl

/-- C2: a failed fetch records the failure verbatim, stops loading, and leaves
the window, the boundary cursors, the navigation flags and the query state
exactly as they were. -/
theorem fetch_failure_preserves_state (s : TxState) (e : String) :
    (onFetchError s e).error = some e ∧
    (onFetchError s e).loading = false ∧
    (onFetchError s e).transactions = s.transactions ∧
    (onFetchError s e).firstHash = s.firstHash ∧
    (onFetchError s e).firstTimestamp = s.firstTimestamp ∧
    (onFetchError s e).lastHash = s.lastHash ∧
    (onFetchError s e).lastTimestamp = s.lastTimestamp ∧
    (onFetchError s e).hasBefore = s.hasBefore ∧
    (onFetchError s e).hasAfter = s.hasAfter ∧
    (onFetchError s e).queryParams = s.queryParams := by
  simp [onFetchError]

/-- C4: when the window has paginated back (`hasBefore` set), a live-feed
record leaves the component state completely unchanged, whatever the
predicate would say. -/
theorem live_event_ignored_when_hasBefore (n : Nat) (pred : Record → Bool)
    (s : TxState) (tx : Record) (h : s.hasBefore = true) :
    updateListWs n pred s tx = s := by
  simp [updateListWs, h]

/-- Witness for C4: a concrete paged-back state is untouched by a live
record. -/
theorem live_event_ignored_when_hasBefore_witness :
    updateListWs 10 (fun _ => true) samplePagedState sampleRecord = samplePagedState :=
  live_event_ignored_when_hasBefore 10 (fun _ => true) samplePagedState sampleRecord rfl

/-- C6: on an accepted live merge the new `hasAfter` is true exactly when it
was already true or the window held exactly `n` records before the merge. -/
theorem live_merge_hasAfter_flag (n : Nat) (pred : Record → Bool)
    (s : TxState) (tx : Record) (h1 : s.hasBefore = false) (h2 : pred tx = true) :
    ((updateListWs n pred s tx).hasAfter = true ↔
      (s.hasAfter = true ∨ s.transactions.length = n)) := by
  simp [updateListWs, h1, h2, mergedState]
  cases hA : s.hasAfter <;> simp

/-- Witness for C6: on a fresh empty first-page state with capacity 10 the
merge leaves `hasAfter` false. -/
theorem live_merge_hasAfter_flag_witness :
    ((updateListWs 10 (fun _ => true) sampleIdleState sampleRecord).hasAfter = true ↔
      (sampleIdleState.hasAfter = true ∨ sampleIdleState.transactions.length = 10)) :=
  live_merge_hasAfter_flag 10 (fun _ => true) sampleIdleState sampleRecord rfl rfl

/-- C8: the live merge is idempotent on record identity: a record whose id
already occurs in the window is a no-op, and merging the same record twice
equals merging it once. -/
theorem live_merge_idempotent (l : List Record) (tx : Record) (n : Nat) :
    ((l.any (fun r => r.tx_id = tx.tx_id)) = true → helpers.updateListWs l tx n = l) ∧
    helpers.updateListWs (helpers.updateListWs l tx n) tx n =
      helpers.updateListWs l tx n := by
  constructor
  · intro h
    simp [helpers.updateListWs, h]
  · by_cases h : l.any (fun r => r.tx_id = tx.tx_id) = true
    · simp [helpers.updateListWs, h]
    · have hr : helpers.updateListWs l tx n =
          tx :: (if l.length = n then l.dropLast else l) := by
        by_cases hl : l.length = n <;> simp [helpers.updateListWs, h, hl]
      rw [hr]
      simp [helpers.updateListWs]

/-- Witness for C8: merging a record already present in a concrete window is
a no-op. -/
theorem live_merge_idempotent_witness :
    helpers.updateListWs [sampleRecord] sampleRecord 10 = [sampleRecord] :=
  (live_merge_idempotent [sampleRecord] sampleRecord 10).1 (by decide)

/-- C10: a `network` event whose type is not exactly
`network:new_tx_accepted` leaves the component state unchanged. -/
theorem ws_other_event_noop (n : Nat) (pred : Record → Bool) (s : TxState)
    (d : WsData) (h : d.type ≠ "network:new_tx_accepted") :
    handleWebsocket n pred s d = s := by
  simp [handleWebsocket, h]

/-- Witness for C10: a concrete `network:best_block_found` event is a no-op. -/
theorem ws_other_event_noop_witness :
    handleWebsocket 10 (fun _ => true) sampleState
      { type := "network:best_block_found", tx := sampleRecord } = sampleState :=
  ws_other_event_noop 10 (fun _ => true) sampleState
    { type := "network:best_block_found", tx := sampleRecord } (by decide)

/-- C5: under the Page Fetcher contract (pages of at most `n` records, with
`n` positive), every reachable world keeps the window within the page-size
capacity, across any interleaving of live merges and fetch completions. -/
theorem window_capacity_invariant (n : Nat) (pred : Record → Bool) (w : World)
    (hn : 0 < n) (hw : Reachable n pred w) :
    w.comp.transactions.length ≤ n := by
  induction hw with
  | init u => simp [initWorld]
  | step e he hw ih =>
    rename_i w'
    cases e with
    | navigate q =>
      simp only [step, stepNavigate]
      split
      · rw [didUpdateW_transactions_eq]
        exact ih
      · exact ih
    | resolve data =>
      simp only [step, stepResolve]
      rcases hq : w'.inFlight with _ | ⟨q, rest⟩ <;> simp only [hq]
      · exact ih
      · split
        · rw [didUpdateW_transactions_eq]
          simp only [handleDataFetched_transactions_eq]
          exact he
        · exact ih
    | reject e' =>
      simp only [step, stepReject]
      rcases hq : w'.inFlight with _ | ⟨q, rest⟩ <;> simp only [hq]
      · exact ih
      · split
        · rw [didUpdateW_transactions_eq]
          exact ih
        · exact ih
    | ws d =>
      simp only [step, stepWs]
      split
      · split
        · split
          · split
            · rw [didUpdateW_transactions_eq]
              simp only [mergedState_transactions_eq]
              exact updateListWs_length_le _ _ _ hn ih
            · exact ih
          · exact ih
        · exact ih
      · exact ih
    | unmount => exact ih

/-- Witness for C5: the freshly mounted world with capacity 10 satisfies the
bound. -/
theorem window_capacity_invariant_witness :
    (initWorld sampleUrl).comp.transactions.length ≤ 10 :=
  window_capacity_invariant 10 (fun _ => true) (initWorld sampleUrl) (by decide)
    (Reachable.init sampleUrl)

/-- C7: in every reachable world with a fetch outstanding the recorded error
is already cleared, so the state `handleDataFetched` produces on fetch
success has no error set and is no longer loading, and the full resolution
step also ends with no error set. -/
theorem fetch_success_error_free (n : Nat) (pred : Record → Bool) (w : World)
    (data : FetchData) (hw : Reachable n pred w) (hf : w.inFlight ≠ []) :
    (step n pred w (Event.resolve data)).comp.error = none ∧
    (∀ q : QueryParams,
      (handleDataFetched w.comp w.url data q).1.error = none ∧
      (handleDataFetched w.comp w.url data q).1.loading = false) := by
  have herr : w.comp.error = none := ((reachable_inv hw).1 hf).1
  constructor
  · simp only [step, stepResolve]
    rcases hq : w.inFlight with _ | ⟨q, rest⟩ <;> simp only [hq]
    · exact herr
    · split
      · refine didUpdateW_error_none _ _ ?_
        rw [handleDataFetched_error_eq]
        exact herr
      · exact herr
  · intro q
    constructor
    · rw [handleDataFetched_error_eq]
      exact herr
    · exact handleDataFetched_loading_eq w.comp w.url data q

/-- Witness for C7: resolving the mount-time fetch of a concrete fresh world
leaves no error set. -/
theorem fetch_success_error_free_witness :
    (step 10 (fun _ => true) (initWorld sampleUrl)
      (Event.resolve sampleData)).comp.error = none :=
  (fetch_success_error_free 10 (fun _ => true) (initWorld sampleUrl) sampleData
    (Reachable.init sampleUrl) (by simp [initWorld])).1

/-- C9: teardown removes the `network` listener and unmounts, and once the
world is unmounted no event (router navigation, a late fetch resolution or
rejection, a websocket delivery) changes the component state; the framework
drops `setState` on an unmounted component, so a late fetch continuation is a
no-op on state. -/
theorem teardown_no_state_mutation (n : Nat) (pred : Record → Bool) (w : World)
    (e : Event) :
    ((step n pred w Event.unmount).listening = false ∧
      (step n pred w Event.unmount).mounted = false) ∧
    (w.mounted = false →
      (step n pred w e).comp = w.comp ∧ (step n pred w e).mounted = false) := by
  constructor
  · exact ⟨rfl, rfl⟩
  · intro hm
    cases e with
    | navigate q => simp [step, stepNavigate, hm]
    | resolve data =>
      simp only [step, stepResolve]
      rcases hq : w.inFlight with _ | ⟨q, rest⟩ <;> simp only [hq]
      · exact ⟨trivial, hm⟩
      · simp [hm]
    | reject e' =>
      simp only [step, stepReject]
      rcases hq : w.inFlight with _ | ⟨q, rest⟩ <;> simp only [hq]
      · exact ⟨trivial, hm⟩
      · simp [hm]
    | ws d =>
      simp only [step, stepWs]
      split
      · split
        · split
          · simp [hm]
          · exact ⟨rfl, hm⟩
        · exact ⟨rfl, hm⟩
      · exact ⟨rfl, hm⟩
    | unmount => exact ⟨rfl, rfl⟩

/-- Witness for C9: a late fetch resolution against a concrete unmounted
world leaves the component state untouched. -/
theorem teardown_no_state_mutation_witness :
    (step 10 (fun _ => true) sampleUnmountedWorld
        (Event.resolve sampleData)).comp = sampleUnmountedWorld.comp ∧
      (step 10 (fun _ => true) sampleUnmountedWorld
        (Event.resolve sampleData)).mounted = false :=
  (teardown_no_state_mutation 10 (fun _ => true) sampleUnmountedWorld
    (Event.resolve sampleData)).2 rfl

/-- C3 counterexample: an external-change evaluation immediately after
transitioning out of `Error` (previous state in `Error`, current state with
the error cleared and not loading) is not suppressed: with changed URL
parameters carrying a hash, the guard of `componentDidUpdate` does issue a
fetch.  The extra suppression in the code fires when the error first appears
(`justErrored` compares the current error against the previous absence), not
when it is cleared. -/
theorem error_exit_evaluation_not_suppressed :
    strTruthy prevErrorState.error = true ∧
    idleAfterErrorState.error = none ∧
    idleAfterErrorState.loading = false ∧
    willFetch prevErrorState idleAfterErrorState newUrlParams = true := by
  decide

/-- C3 amended: no fetch is issued while `loading`; the additional
suppression applies to exactly the one external-change evaluation immediately
after transitioning into `Error` with a truthy failure value (the evaluation
whose previous state's error is falsy and whose current state's error is
truthy); a falsy failure value such as the empty string never triggers the
additional suppression, and once the previous state's error is already truthy
the additional guard no longer fires; reachable worlds keep at most one fetch
in flight. -/
theorem fetch_suppression_loading_and_error_entry (n : Nat)
    (pred : Record → Bool) (prev s : TxState) (u : QueryParams) (w : World)
    (hw : Reachable n pred w) :
    (s.loading = true → willFetch prev s u = false) ∧
    (strTruthy prev.error = false → strTruthy s.error = true →
      willFetch prev s u = false) ∧
    (strTruthy s.error = false → justErrored prev s = false) ∧
    (strTruthy prev.error = true → justErrored prev s = false) ∧
    w.inFlight.length ≤ 1 := by
  refine ⟨?_, ?_, ?_, ?_, (reachable_inv hw).2⟩
  · intro h
    simp [willFetch, skipGetData, h]
  · intro h1 h2
    simp [willFetch, skipGetData, justErrored, h1, h2]
  · intro h
    simp [justErrored, h]
  · intro h
    simp [justErrored, h]

/-- Witness for C3 amended: the evaluation that records a concrete truthy
failure (previous state error-free, erroring state current) is suppressed. -/
theorem fetch_suppression_loading_and_error_entry_witness :
    willFetch idleAfterErrorState prevErrorState newUrlParams = false :=
  (fetch_suppression_loading_and_error_entry 10 (fun _ => true)
    idleAfterErrorState prevErrorState newUrlParams (initWorld sampleUrl)
    (Reachable.init sampleUrl)).2.1 (by decide) (by decide)
